import Mathlib

/-!
Shallow embedding of the Wikipedia-extraction matching core of the
`pythonscrapewiki` repository (directory `19_wikipedia_extraction`).

Strings are modelled as `List Char`; Python `str.lower()` is `lower`,
Python substring tests (`x in y`) are `isSub`, Python `str.replace` is
`replaceAll`, slicing `s[:n]` is `List.take n`.  Fallible external calls
(HTTP lookups, search, coordinates) are modelled as oracle functions
passed to the orchestrators; a `none` answer covers both an absent page
and a swallowed network error, exactly as the Python code coerces every
exception to `None`.
-/

/-- Python `str.lower()` (ASCII data throughout the repository). -/
def lower (s : List Char) : List Char := s.map Char.toLower

/-- Python prefix test used to implement substring search. -/
def isPre : List Char → List Char → Bool
  | [], _ => true
  | _ :: _, [] => false
  | a :: as, b :: bs => a == b && isPre as bs

/-- Python substring test `needle in hay`. -/
def isSub (needle : List Char) : List Char → Bool
  | [] => needle.isEmpty
  | c :: cs => isPre needle (c :: cs) || isSub needle cs

theorem isPre_iff (n h : List Char) : isPre n h = true ↔ ∃ q, n ++ q = h := by
  induction n generalizing h with
  | nil => simp [isPre]
  | cons a as ih =>
    cases h with
    | nil => simp [isPre]
    | cons b bs =>
      simp only [isPre, Bool.and_eq_true, beq_iff_eq, ih, List.cons_append,
        List.cons.injEq]
      constructor
      · rintro ⟨rfl, q, rfl⟩; exact ⟨q, rfl, rfl⟩
      · rintro ⟨q, rfl, rfl⟩; exact ⟨rfl, q, rfl⟩

theorem isSub_iff (n h : List Char) : isSub n h = true ↔ ∃ p q, p ++ n ++ q = h := by
  induction h with
  | nil =>
    simp only [isSub, List.isEmpty_iff]
    constructor
    · rintro rfl; exact ⟨[], [], rfl⟩
    · rintro ⟨p, q, hpq⟩
      rcases List.append_eq_nil.mp hpq with ⟨h1, -⟩
      exact (List.append_eq_nil.mp h1).2
  | cons c cs ih =>
    simp only [isSub, Bool.or_eq_true, isPre_iff, ih]
    constructor
    · rintro (⟨q, hq⟩ | ⟨p, q, rfl⟩)
      · exact ⟨[], q, by simpa using hq⟩
      · exact ⟨c :: p, q, rfl⟩
    · rintro ⟨p, q, hpq⟩
      cases p with
      | nil => exact Or.inl ⟨q, by simpa using hpq⟩
      | cons x xs =>
        right
        refine ⟨xs, q, ?_⟩
        have := hpq
        simp only [List.cons_append, List.cons.injEq] at this
        exact this.2

theorem isSub_append_left {n h : List Char} (k : List Char)
    (hs : isSub n h = true) : isSub n (h ++ k) = true := by
  rcases (isSub_iff n h).mp hs with ⟨p, q, rfl⟩
  exact (isSub_iff n _).mpr ⟨p, q ++ k, by simp⟩

theorem isSub_self_append (h n : List Char) : isSub n (h ++ n) = true :=
  (isSub_iff n _).mpr ⟨h, [], by simp⟩

theorem isSub_take_append {n h : List Char} (m : ℕ) (k : List Char)
    (hs : isSub n (h.take m) = true) : isSub n ((h ++ k).take m) = true := by
  rw [List.take_append_eq_append_take]
  exact isSub_append_left _ hs

/-- Worker for `replaceAll`; the fuel argument makes the recursion
structural (each step consumes at least one character, so fuel equal to
the input length is always enough). -/
def replaceAllAux (pat rep : List Char) : Nat → List Char → List Char
  | 0, l => l
  | _ + 1, [] => []
  | fuel + 1, c :: cs =>
    if !pat.isEmpty && isPre pat (c :: cs) then
      rep ++ replaceAllAux pat rep fuel ((c :: cs).drop pat.length)
    else
      c :: replaceAllAux pat rep fuel cs

/-- Python `str.replace(pat, rep)`: replace every non-overlapping
occurrence, scanning left to right, without rescanning the replacement. -/
def replaceAll (pat rep l : List Char) : List Char :=
  replaceAllAux pat rep l.length l

/-- Python `str.strip()` (the data only ever carries plain spaces). -/
def trim (l : List Char) : List Char :=
  ((l.dropWhile (· == ' ')).reverse.dropWhile (· == ' ')).reverse

/-- A candidate page as returned by the resolvers:
`{'title': ..., 'summary': ..., 'url': ...}`. -/
structure Page where
  title : List Char
  summary : List Char
  url : List Char
deriving DecidableEq, Repr

/-- The per-record match status enumeration of the schema. -/
inductive Status where
  | PENDING | FOUND | NOT_FOUND | ERROR
deriving DecidableEq, Repr

example : "ab".toList = ['a', 'b'] := rfl
example : isSub "bc".toList "abcd".toList = true := by decide
example : isSub "bd".toList "abcd".toList = false := by decide
example : replaceAll " block".toList " ".toList "kurnool blockapur".toList
    = "kurnool apur".toList := by decide

/-- Generic first-accept scan shared by the matchers: try each term with
the resolver and return the first candidate passing the validator
(`for term in ...: result = resolve(term); if result and ok(result): return result`). -/
def firstAccept (resolve : List Char → Option Page) (ok : Page → Bool) :
    List (List Char) → Option Page
  | [] => none
  | t :: ts =>
    match resolve t with
    | some p => if ok p then some p else firstAccept resolve ok ts
    | none => firstAccept resolve ok ts

/-- JSON body of the REST page-summary endpoint as consumed by the code:
`type`, `title`, `extract`, `content_urls.desktop.page`, together with
the HTTP status; `Option` fields model keys that may be absent
(`d.get(...)` with a default). -/
structure RestResponse where
  status : Nat
  rtype : List Char
  title : Option (List Char)
  extract : Option (List Char)
  desktop_page : Option (List Char)
deriving DecidableEq, Repr

namespace DistrictsSparql

/- 19_1_extract_districts_sparql.py -/

def qualifier_words : List (List Char) :=
  [" district", " mandal", " tehsil", " taluk", " taluka",
   " block", " subdistrict", " state", " and "].map String.toList

/-- `normalize` of `19_1_extract_districts_sparql.py`: lower-case, replace
each qualifier substring by a space via `str.replace`, strip characters
outside `[a-z0-9 ]`, then `strip()`. -/
def normalize (name : List Char) : List Char :=
  let n := lower name
  let n := qualifier_words.foldl (fun acc s => replaceAll s " ".toList acc) n
  let n := n.filter
    (fun c => decide (('a' ≤ c ∧ c ≤ 'z') ∨ ('0' ≤ c ∧ c ≤ '9') ∨ c = ' '))
  trim n

end DistrictsSparql

namespace Districts

/- 19_2_extract_districts.py -/

def blacklist : List (List Char) :=
  ["list of", "mandal", "taluk", "tehsil", "village",
   "assembly constituency", "lok sabha constituency", "division"].map String.toList

/-- `is_correct_page` of `19_2_extract_districts.py`. -/
def is_correct_page (title summary target_name state : List Char) : Bool :=
  if title.isEmpty || summary.isEmpty then false
  else
    let title_lower := lower title
    let summary_lower := lower summary
    let target_lower := lower target_name
    let state_lower := lower state
    if !isSub "district".toList title_lower && !isSub "district".toList summary_lower then
      false
    else if !isSub target_lower title_lower && !isSub target_lower summary_lower then
      false
    else if !isSub state_lower summary_lower then
      false
    else if blacklist.any (fun bad => isSub bad title_lower) then
      false
    else
      true

/-- The `wikipediaapi` page object as used by `get_page_direct`: the code
consults only `exists()`; the page type reported by the endpoint
(`ptype`) is recorded in the model but never inspected by the code. -/
structure WikiPageObj where
  pexists : Bool
  ptype : List Char
  title : List Char
  summary : List Char
  fullurl : List Char
deriving DecidableEq, Repr

/-- `get_page_direct` of `19_2_extract_districts.py`: returns the page
whenever `page.exists()`; an exception (`none` response) yields `None`. -/
def get_page_direct (resp : Option WikiPageObj) : Option Page :=
  match resp with
  | some page =>
    if page.pexists then
      some ⟨page.title, page.summary.take 1000, page.fullurl⟩
    else none
  | none => none

/-- The ordered `search_terms` list of `extract_districts`. -/
def search_terms (name state : List Char) : List (List Char) :=
  [name ++ " district, ".toList ++ state,
   name ++ " district ".toList ++ state,
   name ++ " district".toList]

/-- The direct-lookup loop of `extract_districts`, with the mutable
`result` variable carried as the accumulator: on a validation failure the
loop continues with `result` still holding the (unvalidated) page; on a
category failure it continues with `result = None`; on category success
it breaks. -/
def term_loop (direct : List Char → Option Page) (ok : Page → Bool)
    (cat : List Char → Bool) : List (List Char) → Option Page → Option Page
  | [], acc => acc
  | t :: ts, _ =>
    match direct t with
    | some p =>
      if ok p then
        if cat p.title then some p else term_loop direct ok cat ts none
      else term_loop direct ok cat ts (some p)
    | none => term_loop direct ok cat ts none

/-- A row of `wikipedia_districts`; `γ` is the coordinate carrier. -/
structure Row (γ : Type) where
  district_name : List Char
  state_name : List Char
  latitude : Option γ
  longitude : Option γ
  wiki_title : Option (List Char)
  wiki_url : Option (List Char)
  wiki_summary : Option (List Char)
  website_url : Option (List Char)
  status : Status
deriving DecidableEq

/-- One iteration of the `extract_districts` main loop: resolve, fall
back to the search API, then persist status, reference fields,
coordinates and website URL exactly as the UPDATE statement does. -/
def process_row {γ : Type} (direct : List Char → Option WikiPageObj)
    (searchHits : List Char → List (List Char))
    (cat : List Char → Bool)
    (coords : List Char → Option (γ × γ))
    (website : List Char → Option (List Char))
    (row : Row γ) : Row γ :=
  let name := row.district_name
  let state := row.state_name
  let directP := fun t => get_page_direct (direct t)
  let ok := fun (p : Page) => is_correct_page p.title p.summary name state
  let r1 := term_loop directP ok cat (search_terms name state) none
  let result :=
    match r1 with
    | some p => some p
    | none =>
      match (match searchHits (name ++ " district ".toList ++ state) with
             | [] => none
             | h :: _ => directP h) with
      | some p => if !ok p || !cat p.title then none else some p
      | none => none
  match result with
  | some p =>
    { row with
      wiki_title := some p.title, wiki_url := some p.url,
      wiki_summary := some p.summary, status := Status.FOUND,
      latitude := (coords p.title).map Prod.fst,
      longitude := (coords p.title).map Prod.snd,
      website_url := website p.title }
  | none =>
    { row with
      wiki_title := none, wiki_url := none, wiki_summary := none,
      status := Status.NOT_FOUND, latitude := none, longitude := none,
      website_url := none }

end Districts

namespace Subdistricts

/- 19_3_extract_subdistricts.py -/

/-- `get_page_direct` of `19_3_extract_subdistricts.py` (REST summary
endpoint): usable only when the HTTP status is 200 and the reported page
type is `standard` or `disambiguation`; every other type, and any
swallowed exception (`none` response), yields `None`.  The `title` key
defaults to the looked-up term, `extract` to the empty string (capped at
1000 characters), the desktop URL to the empty string. -/
def get_page_direct (term : List Char) (resp : Option RestResponse) : Option Page :=
  match resp with
  | some r =>
    if r.status = 200 then
      if r.rtype = "standard".toList ∨ r.rtype = "disambiguation".toList then
        some ⟨r.title.getD term, (r.extract.getD []).take 1000, r.desktop_page.getD []⟩
      else none
    else none
  | none => none

def blacklist : List (List Char) :=
  ["list of", "assembly constituency", "lok sabha constituency",
   "elections in"].map String.toList

/-- `is_correct_page` of `19_3_extract_subdistricts.py`. -/
def is_correct_page (title summary target_name district state : List Char) : Bool :=
  if title.isEmpty || summary.isEmpty then false
  else
    let title_lower := lower title
    let summary_lower := lower summary
    let target_lower := lower target_name
    let district_lower := lower district
    let state_lower := lower state
    if !isSub target_lower title_lower && !isSub target_lower summary_lower then
      false
    else if !isSub district_lower summary_lower && !isSub state_lower summary_lower then
      false
    else if blacklist.any (fun bad => isSub bad title_lower) then
      false
    else
      true

def qualifiers : List (List Char) :=
  ["Tehsil", "Taluk", "Mandal", "Block", "Taluka"].map String.toList

/-- The ordered direct-lookup attempts of `find_wiki_result`
(steps 1-4): bare name, name+state, the qualifier variants, name+district
variants. -/
def direct_terms (name district state : List Char) : List (List Char) :=
  [name, name ++ " ".toList ++ state]
  ++ qualifiers.flatMap (fun q =>
      [name ++ " ".toList ++ q,
       name ++ " ".toList ++ q ++ ", ".toList ++ district,
       name ++ " ".toList ++ q ++ ", ".toList ++ district ++ " district".toList,
       name ++ " ".toList ++ q ++ ", ".toList ++ state])
  ++ [name ++ ", ".toList ++ district,
      name ++ " ".toList ++ district,
      name ++ ", ".toList ++ district ++ " district".toList]

/-- The step-5 search-API fallback terms of `find_wiki_result`. -/
def api_search_terms (name district state : List Char) : List (List Char) :=
  [name,
   name ++ " ".toList ++ state,
   name ++ " ".toList ++ district,
   name ++ " tehsil ".toList ++ district,
   name ++ " mandal ".toList ++ district]

/-- `get_page_via_search`: take the first search hit's title and resolve
it through `get_page_direct`. -/
def get_page_via_search (searchHits : List Char → List (List Char))
    (direct : List Char → Option RestResponse) (term : List Char) : Option Page :=
  match searchHits term with
  | [] => none
  | title :: _ => get_page_direct title (direct title)

/-- `find_wiki_result` of `19_3_extract_subdistricts.py`: first-accept
over the direct attempts, then over the search-API fallback terms. -/
def find_wiki_result (direct : List Char → Option RestResponse)
    (searchHits : List Char → List (List Char))
    (name district state : List Char) : Option Page :=
  let ok := fun (p : Page) => is_correct_page p.title p.summary name district state
  match firstAccept (fun t => get_page_direct t (direct t)) ok
      (direct_terms name district state) with
  | some p => some p
  | none =>
    firstAccept (get_page_via_search searchHits direct) ok
      (api_search_terms name district state)

/-- A row of `wikipedia_subdistricts`; `γ` is the coordinate carrier. -/
structure Row (γ : Type) where
  subdistrict_name : List Char
  district_name : List Char
  state_name : List Char
  latitude : Option γ
  longitude : Option γ
  wiki_title : Option (List Char)
  wiki_url : Option (List Char)
  wiki_summary : Option (List Char)
  wikidata_id : Option (List Char)
  status : Status
deriving DecidableEq

/-- One iteration of the `extract_subdistricts` main loop, persisting
exactly the columns of its UPDATE statement (coordinates are written
unconditionally: `(None, None)` unless a match was found and the
coordinate call answered). -/
def process_row {γ : Type} (direct : List Char → Option RestResponse)
    (searchHits : List Char → List (List Char))
    (coords : List Char → Option (γ × γ))
    (row : Row γ) : Row γ :=
  match find_wiki_result direct searchHits
      row.subdistrict_name row.district_name row.state_name with
  | some p =>
    { row with
      wiki_title := some p.title, wiki_url := some p.url,
      wiki_summary := some p.summary, status := Status.FOUND,
      latitude := (coords p.title).map Prod.fst,
      longitude := (coords p.title).map Prod.snd }
  | none =>
    { row with
      wiki_title := none, wiki_url := none, wiki_summary := none,
      status := Status.NOT_FOUND, latitude := none, longitude := none }

end Subdistricts

namespace Bing

/- 19_3_scrape_wikipedia_urls_with_bing.py -/

/-- One iteration of the Bing URL-fallback main loop over
`wikipedia_subdistricts`: when a Wikipedia URL was found the UPDATE sets
only `wiki_url`, `wikidata_id` and `status='FOUND'`, leaving
`wiki_title` and `wiki_summary` untouched; otherwise it nulls the two
and sets `NOT_FOUND`. -/
def process_row {γ : Type} (url_found : Option (List Char))
    (qid : Option (List Char)) (row : Subdistricts.Row γ) : Subdistricts.Row γ :=
  match url_found with
  | some u => { row with wiki_url := some u, wikidata_id := qid, status := Status.FOUND }
  | none => { row with wiki_url := none, wikidata_id := none, status := Status.NOT_FOUND }

end Bing

namespace Ulbs

/- 19_4_extract_ulbs.py -/

def GEO_KEYWORDS : List (List Char) :=
  ["town", "city", "municipality", "municipal", "corporation", "nagarpalika",
   "nagar panchayat", "urban", "population", "district", "state", "india"].map
    String.toList

def blacklist : List (List Char) :=
  ["list of", "assembly constituency", "lok sabha constituency",
   "elections in", "vidhan sabha", "railway station"].map String.toList

/-- `is_correct_page` of `19_4_extract_ulbs.py`. -/
def is_correct_page (title summary target_name state : List Char) : Bool :=
  if title.isEmpty || summary.isEmpty then false
  else
    let title_lower := lower title
    let summary_lower := lower summary
    let target_lower := lower target_name
    let state_lower := lower state
    if !isSub target_lower title_lower && !isSub target_lower summary_lower then
      false
    else if !isSub state_lower summary_lower then
      false
    else if !(GEO_KEYWORDS.any (fun k => isSub k (summary_lower.take 600))) then
      false
    else if blacklist.any (fun bad => isSub bad title_lower) then
      false
    else
      true

def base_qualifiers : List (List Char) :=
  ["Municipality", "Municipal Corporation", "City", "Town",
   "Nagar Palika", "Nagar Panchayat"].map String.toList

/-- The qualifier list of `find_wiki_result`: the record's own `ulb_type`
is promoted to the front when present. -/
def qualifiers_of (type_ : List Char) : List (List Char) :=
  if type_.isEmpty then base_qualifiers
  else type_ :: base_qualifiers.filter (fun q => decide (lower q ≠ lower type_))

/-- The ordered direct-lookup attempts of the ULB `find_wiki_result`
(steps 1-4). -/
def direct_terms (name state type_ : List Char) : List (List Char) :=
  [name, name ++ " ".toList ++ state]
  ++ (qualifiers_of type_).flatMap (fun q =>
      [name ++ " ".toList ++ q,
       name ++ " ".toList ++ q ++ ", ".toList ++ state,
       name ++ ", ".toList ++ state ++ " ".toList ++ q])
  ++ [name ++ ", ".toList ++ state,
      name ++ " (".toList ++ state ++ ")".toList]

end Ulbs

/-- Position just after the first `)` of a list, when one exists
(the tail the regex scan resumes from). -/
def afterClose : List Char → Option (List Char)
  | [] => none
  | c :: cs => if c == ')' then some cs else afterClose cs

/-- Worker for `dropParens` (fuel makes the recursion structural). -/
def dropParensAux : Nat → List Char → List Char
  | 0, l => l
  | _ + 1, [] => []
  | fuel + 1, c :: cs =>
    if c == '(' then
      match afterClose cs with
      | some rest => dropParensAux fuel rest
      | none => c :: dropParensAux fuel cs
    else c :: dropParensAux fuel cs

/-- Python `re.sub(r'\(.*?\)', '', s)`: delete every non-greedy
parenthesised group (an unclosed `(` is kept). -/
def dropParens (l : List Char) : List Char :=
  dropParensAux l.length l

/-- Worker for `collapseSpaces` (fuel makes the recursion structural). -/
def collapseSpacesAux : Nat → List Char → List Char
  | 0, l => l
  | _ + 1, [] => []
  | fuel + 1, c :: cs =>
    if c == ' ' then ' ' :: collapseSpacesAux fuel (cs.dropWhile (fun x => x == ' '))
    else c :: collapseSpacesAux fuel cs

/-- Python `re.sub(r'\s+', ' ', s)`: collapse whitespace runs to one
space (the data only ever carries plain spaces). -/
def collapseSpaces (l : List Char) : List Char :=
  collapseSpacesAux l.length l

namespace Villages

/- 19_5_extract_villages.py -/

/-- `clean_name` of `19_5_extract_villages.py`: drop asterisks, drop
parenthetical notes, truncate at a `/`, replace characters outside
`[a-zA-Z0-9 \-\.]` by a space, collapse whitespace, strip. -/
def clean_name (name : List Char) : List Char :=
  let n := name.filter (fun c => !(c == '*'))
  let n := dropParens n
  let n := n.takeWhile (fun c => !(c == '/'))
  let n := n.map (fun c =>
    if decide (('a' ≤ c ∧ c ≤ 'z') ∨ ('A' ≤ c ∧ c ≤ 'Z') ∨ ('0' ≤ c ∧ c ≤ '9')
        ∨ c = ' ' ∨ c = '-' ∨ c = '.') then c else ' ')
  trim (collapseSpaces n)

/-- `get_page_rest` of `19_5_extract_villages.py` (same REST contract as
the subdistrict resolver). -/
def get_page_rest (title : List Char) (resp : Option RestResponse) : Option Page :=
  match resp with
  | some r =>
    if r.status = 200 then
      if r.rtype = "standard".toList ∨ r.rtype = "disambiguation".toList then
        some ⟨r.title.getD title, (r.extract.getD []).take 1000, r.desktop_page.getD []⟩
      else none
    else none
  | none => none

def GEO_WORDS : List (List Char) :=
  ["village", "town", "hamlet", "settlement", "populated place",
   "panchayat", "gram", "locality", "census", "population",
   "district", "tehsil", "mandal", "taluk"].map String.toList

def BLACKLIST : List (List Char) :=
  ["list of", "constituency", "election", "railway station",
   "airport", "disambiguation"].map String.toList

/-- `is_correct_page` of `19_5_extract_villages.py` (note: no emptiness
guard on title or summary). -/
def is_correct_page (title summary name district state : List Char) : Bool :=
  let t := lower title
  let s := lower summary
  let n := lower name
  let d := lower district
  let st := lower state
  if !isSub n t && !isSub n s then
    false
  else if !isSub d s && !isSub st s then
    false
  else if !(GEO_WORDS.any (fun w => isSub w (s.take 700))) then
    false
  else if BLACKLIST.any (fun b => isSub b t) then
    false
  else
    true

/-- The ordered direct-lookup attempts of the village `find_wiki_result`. -/
def direct_attempts (clean district state : List Char) : List (List Char) :=
  [clean ++ ", ".toList ++ district,
   clean ++ " village".toList,
   clean ++ ", ".toList ++ state,
   clean ++ ", ".toList ++ district ++ ", ".toList ++ state,
   clean]

/-- The search-API terms of the village `find_wiki_result`. -/
def api_search_terms (clean district state : List Char) : List (List Char) :=
  [clean ++ " village ".toList ++ district ++ " ".toList ++ state,
   clean ++ " ".toList ++ district,
   clean ++ " ".toList ++ state]

/-- `clean.split()[0].lower()` (clean is already trimmed). -/
def first_word (clean : List Char) : List Char :=
  lower (clean.takeWhile (fun c => !(c == ' ')))

/-- The inner hit loop of the village search phase: skip hits whose title
does not contain the first word of the cleaned name, resolve the rest,
return the first validated page. -/
def scan_hits (direct : List Char → Option RestResponse) (ok : Page → Bool)
    (fw : List Char) : List (List Char) → Option Page
  | [] => none
  | hit :: hits =>
    if !isSub fw (lower hit) then scan_hits direct ok fw hits
    else
      match get_page_rest hit (direct hit) with
      | some p => if ok p then some p else scan_hits direct ok fw hits
      | none => scan_hits direct ok fw hits

/-- The outer search loop of the village `find_wiki_result`. -/
def search_loop (direct : List Char → Option RestResponse)
    (searchHits : List Char → List (List Char)) (ok : Page → Bool)
    (fw : List Char) : List (List Char) → Option Page
  | [] => none
  | t :: ts =>
    match scan_hits direct ok fw (searchHits t) with
    | some p => some p
    | none => search_loop direct searchHits ok fw ts

/-- `find_wiki_result` of `19_5_extract_villages.py`: clean the raw name,
give up at once on unsearchable names, then direct lookups, then the
search-API phase. -/
def find_wiki_result (direct : List Char → Option RestResponse)
    (searchHits : List Char → List (List Char))
    (name subdistrict district state : List Char) : Option Page :=
  let clean := clean_name name
  if clean.isEmpty || decide (clean.length < 2) then none
  else
    let ok := fun (p : Page) => is_correct_page p.title p.summary clean district state
    match firstAccept (fun t => get_page_rest t (direct t)) ok
        (direct_attempts clean district state) with
    | some p => some p
    | none =>
      search_loop direct searchHits ok (first_word clean)
        (api_search_terms clean district state)

def SKIP_STATES : List (List Char) :=
  ["andaman and nicobar islands", "lakshadweep"].map String.toList

/-- A row of `wikipedia_villages`; `γ` is the coordinate carrier. -/
structure Row (γ : Type) where
  village_name : List Char
  subdistrict_name : List Char
  district_name : List Char
  state_name : List Char
  latitude : Option γ
  longitude : Option γ
  wiki_title : Option (List Char)
  wiki_url : Option (List Char)
  wiki_summary : Option (List Char)
  status : Status
deriving DecidableEq

/-- One iteration of the `extract_villages` main loop: skip-state rows
only get `status='NOT_FOUND'`; otherwise match, fetch coordinates with
fall-back to the row's census coordinates, and persist exactly the
columns of the UPDATE statement. -/
def process_row {γ : Type} (direct : List Char → Option RestResponse)
    (searchHits : List Char → List (List Char))
    (coords : List Char → Option (γ × γ))
    (row : Row γ) : Row γ :=
  if SKIP_STATES.contains (lower row.state_name) then
    { row with status := Status.NOT_FOUND }
  else
    match find_wiki_result direct searchHits
        row.village_name row.subdistrict_name row.district_name row.state_name with
    | some p =>
      let c := coords p.title
      { row with
        wiki_title := some p.title, wiki_url := some p.url,
        wiki_summary := some p.summary, status := Status.FOUND,
        latitude := match c with | some pr => some pr.1 | none => row.latitude,
        longitude := match c with | some pr => some pr.2 | none => row.longitude }
    | none =>
      { row with
        wiki_title := none, wiki_url := none, wiki_summary := none,
        status := Status.NOT_FOUND,
        latitude := row.latitude, longitude := row.longitude }

end Villages

/- Sample rows used by concrete witnesses. -/

def sampleSubRow : Subdistricts.Row Int :=
  ⟨"Mangalagiri".toList, "Guntur".toList, "Andhra Pradesh".toList,
   some 7, some 8, none, none, none, none, Status.PENDING⟩

def sampleVilRow : Villages.Row Int :=
  ⟨"Rampur".toList, "Sadar".toList, "Bareilly".toList, "Uttar Pradesh".toList,
   some 3, some 4, none, none, none, Status.PENDING⟩

def sampleBadNameRow : Villages.Row Int :=
  ⟨"**".toList, "Sadar".toList, "Bareilly".toList, "Uttar Pradesh".toList,
   some 3, some 4, none, none, none, Status.PENDING⟩

/-- C1: the districts orchestrator violates the first-accept contract:
with every direct lookup answering an existing page `{title: "z",
summary: "w"}` that fails `is_correct_page` (no "district", wrong name,
wrong state), the record is nevertheless persisted as FOUND with that
unvalidated page, because after the last term the stale `result`
variable is never reset. -/
theorem c1_districts_accepts_unvalidated_page :
    (Districts.process_row
        (fun _ => some ⟨true, "standard".toList, "z".toList, "w".toList, "u".toList⟩)
        (fun _ => []) (fun _ => false) (fun _ => (none : Option (Int × Int)))
        (fun _ => none)
        ⟨"a".toList, "b".toList, none, none, none, none, none, none,
          Status.PENDING⟩).status = Status.FOUND ∧
    (Districts.process_row
        (fun _ => some ⟨true, "standard".toList, "z".toList, "w".toList, "u".toList⟩)
        (fun _ => []) (fun _ => false) (fun _ => (none : Option (Int × Int)))
        (fun _ => none)
        ⟨"a".toList, "b".toList, none, none, none, none, none, none,
          Status.PENDING⟩).wiki_title = some "z".toList ∧
    Districts.is_correct_page "z".toList "w".toList "a".toList "b".toList = false := by
  decide

/-- C4: `normalize` of `19_1_extract_districts_sparql.py` removes
qualifier words only when preceded by a space, not at full word
boundaries: "Kurnool Blockapur" loses the "block" of "Blockapur" and
becomes "kurnool apur", though "Blockapur" alone survives. -/
theorem c4_normalize_eval :
    DistrictsSparql.normalize "Kurnool Blockapur".toList = "kurnool apur".toList ∧
    isSub "block".toList (DistrictsSparql.normalize "Kurnool Blockapur".toList) = false ∧
    DistrictsSparql.normalize "Blockapur".toList = "blockapur".toList := by
  decide

/-- C6 counterexample: the districts resolver (`get_page_direct` of
`19_2_extract_districts.py`) checks only `page.exists()` and returns a
candidate for a page whose reported type is "redirect", contradicting
the claim that every resolver yields none for types other than
standard/disambiguation. -/
theorem c6_counterexample :
    Districts.get_page_direct
        (some ⟨true, "redirect".toList, "t".toList, "s".toList, "u".toList⟩)
      = some ⟨"t".toList, "s".toList, "u".toList⟩ ∧
    "redirect".toList ≠ "standard".toList ∧
    "redirect".toList ≠ "disambiguation".toList := by
  decide

/-- C7 counterexample: the village validator has no emptiness guard on
the title, so a candidate with an empty title passes it, contradicting
the claim that every entity kind's validator rejects empty titles. -/
theorem c7_counterexample :
    Villages.is_correct_page [] "x village in y district".toList
      "x".toList "y".toList "z".toList = true := by
  decide

/-- C2 counterexample: a subdistrict record whose match attempt ends in
NOT_FOUND has its pre-existing coordinates (7, 8) overwritten with null
by the UPDATE, contradicting the claim that this never happens for any
entity kind. -/
theorem c2_counterexample :
    (Subdistricts.process_row (fun _ => none) (fun _ => [])
        (fun _ => (none : Option (Int × Int))) sampleSubRow).latitude = none ∧
    (Subdistricts.process_row (fun _ => none) (fun _ => [])
        (fun _ => (none : Option (Int × Int))) sampleSubRow).status = Status.NOT_FOUND ∧
    sampleSubRow.latitude = some 7 := by
  decide

/-- C3 counterexample: the Bing URL-fallback script persists FOUND with
only `wiki_url` populated — `wiki_title` and `wiki_summary` stay null —
contradicting the claim that no code path persists FOUND with those
fields null. -/
theorem c3_counterexample :
    (Bing.process_row (some "https://en.wikipedia.org/wiki/X".toList) none
        { sampleSubRow with status := Status.NOT_FOUND }).status = Status.FOUND ∧
    (Bing.process_row (some "https://en.wikipedia.org/wiki/X".toList) none
        { sampleSubRow with status := Status.NOT_FOUND }).wiki_title = none ∧
    (Bing.process_row (some "https://en.wikipedia.org/wiki/X".toList) none
        { sampleSubRow with status := Status.NOT_FOUND }).wiki_summary = none := by
  decide

/-- C5 counterexample: for the spec's own record (name "Nellore",
district "Nellore", state "Andhra Pradesh") the district matcher's term
sequence does not begin with the bare name (the bare name never occurs),
and the village matcher puts the qualifier term "Nellore village" at
position 1, before the bare name at position 4. -/
theorem c5_counterexample :
    (Districts.search_terms "Nellore".toList "Andhra Pradesh".toList).head?
      ≠ some "Nellore".toList ∧
    "Nellore".toList ∉ Districts.search_terms "Nellore".toList "Andhra Pradesh".toList ∧
    (Villages.direct_attempts "Nellore".toList "Nellore".toList
        "Andhra Pradesh".toList).head? ≠ some "Nellore".toList ∧
    (Villages.direct_attempts "Nellore".toList "Nellore".toList
        "Andhra Pradesh".toList).get? 1 = some "Nellore village".toList ∧
    (Villages.direct_attempts "Nellore".toList "Nellore".toList
        "Andhra Pradesh".toList).get? 4 = some "Nellore".toList := by
  decide

/-- C7 (amended): the district, subdistrict and ULB validators reject
every candidate with an empty title or an empty summary; the village
validator rejects every candidate with an empty summary (its
geographic-keyword check can never hold on an empty text), but it has no
emptiness guard on the title. -/
theorem c7_empty_rejection_amended (t s n d st : List Char) :
    Districts.is_correct_page [] s n st = false ∧
    Districts.is_correct_page t [] n st = false ∧
    Subdistricts.is_correct_page [] s n d st = false ∧
    Subdistricts.is_correct_page t [] n d st = false ∧
    Ulbs.is_correct_page [] s n st = false ∧
    Ulbs.is_correct_page t [] n st = false ∧
    Villages.is_correct_page t [] n d st = false := by
  refine ⟨?_, ?_, ?_, ?_, ?_, ?_, ?_⟩
  · simp [Districts.is_correct_page]
  · simp [Districts.is_correct_page]
  · simp [Subdistricts.is_correct_page]
  · simp [Subdistricts.is_correct_page]
  · simp [Ulbs.is_correct_page]
  · simp [Ulbs.is_correct_page]
  · have hg : (Villages.GEO_WORDS.any
        (fun w => isSub w ((lower ([] : List Char)).take 700))) = false := by decide
    simp only [Villages.is_correct_page, hg, Bool.not_false, if_true]
    split
    · rfl
    · split
      · rfl
      · rfl

/-- C6 (amended): the REST-based resolvers (subdistricts, villages)
return a candidate only when the HTTP status is 200 and the reported
page type is `standard` or `disambiguation`, and return none on a
swallowed error; the districts resolver also returns none on error, but
gates only on page existence and returns any existing page regardless
of its type. -/
theorem c6_resolver_type_gate_amended (term : List Char) (r : RestResponse) (p : Page) :
    (Subdistricts.get_page_direct term (some r) = some p →
      r.status = 200 ∧
      (r.rtype = "standard".toList ∨ r.rtype = "disambiguation".toList)) ∧
    Subdistricts.get_page_direct term none = none ∧
    (Villages.get_page_rest term (some r) = some p →
      r.status = 200 ∧
      (r.rtype = "standard".toList ∨ r.rtype = "disambiguation".toList)) ∧
    Villages.get_page_rest term none = none ∧
    Districts.get_page_direct none = none ∧
    (∀ o : Districts.WikiPageObj, o.pexists = true →
      Districts.get_page_direct (some o) = some ⟨o.title, o.summary.take 1000, o.fullurl⟩) := by
  refine ⟨?_, rfl, ?_, rfl, rfl, ?_⟩
  · intro h
    simp only [Subdistricts.get_page_direct] at h
    split at h
    · split at h
      · exact ⟨by assumption, by assumption⟩
      · exact absurd h (by simp)
    · exact absurd h (by simp)
  · intro h
    simp only [Villages.get_page_rest] at h
    split at h
    · split at h
      · exact ⟨by assumption, by assumption⟩
      · exact absurd h (by simp)
    · exact absurd h (by simp)
  · intro o ho
    simp [Districts.get_page_direct, ho]

/-- C6 witness: the REST gate applied at a concrete standard-type
200 response. -/
theorem c6_witness :
    (⟨200, "standard".toList, some "T".toList, some "S".toList,
        some "U".toList⟩ : RestResponse).status = 200 ∧
    ((⟨200, "standard".toList, some "T".toList, some "S".toList,
        some "U".toList⟩ : RestResponse).rtype = "standard".toList ∨
     (⟨200, "standard".toList, some "T".toList, some "S".toList,
        some "U".toList⟩ : RestResponse).rtype = "disambiguation".toList) :=
  (c6_resolver_type_gate_amended "X".toList
    ⟨200, "standard".toList, some "T".toList, some "S".toList, some "U".toList⟩
    ⟨"T".toList, "S".toList, "U".toList⟩).1 (by decide)

/-- C5 (amended): only the ULB matcher fully satisfies the claimed
ordering (bare name first, then name+state, qualifier terms only later);
the subdistrict matcher starts with the bare name and name+state but
tries its qualifier terms (from position 2) before the name+district
terms (from position 22); the district matcher has no bare-name term at
all (every term strictly extends the name with the "district"
qualifier); the village matcher tries name+district first, the
"village" qualifier term second, and the bare name last. -/
theorem c5_ordering_amended (n d s ty : List Char) :
    (Subdistricts.direct_terms n d s).head? = some n ∧
    (Subdistricts.direct_terms n d s).get? 1 = some (n ++ " ".toList ++ s) ∧
    (Subdistricts.direct_terms n d s).get? 2 = some (n ++ " ".toList ++ "Tehsil".toList) ∧
    (Subdistricts.direct_terms n d s).get? 22 = some (n ++ ", ".toList ++ d) ∧
    (Ulbs.direct_terms n s ty).head? = some n ∧
    (Ulbs.direct_terms n s ty).get? 1 = some (n ++ " ".toList ++ s) ∧
    n ∉ Districts.search_terms n s ∧
    (Villages.direct_attempts n d s).getLast? = some n ∧
    (Villages.direct_attempts n d s).head? = some (n ++ ", ".toList ++ d) ∧
    (Villages.direct_attempts n d s).get? 1 = some (n ++ " village".toList) := by
  refine ⟨rfl, rfl, rfl, rfl, rfl, rfl, ?_, rfl, rfl, rfl⟩
  intro hmem
  simp only [Districts.search_terms, List.mem_cons, List.not_mem_nil, or_false] at hmem
  have hlen1 : (" district, ".toList).length = 11 := rfl
  have hlen2 : (" district ".toList).length = 10 := rfl
  have hlen3 : (" district".toList).length = 9 := rfl
  rcases hmem with h | h | h
  · have := congrArg List.length h
    rw [List.length_append, List.length_append, hlen1] at this
    omega
  · have := congrArg List.length h
    rw [List.length_append, List.length_append, hlen2] at this
    omega
  · have := congrArg List.length h
    rw [List.length_append, hlen3] at this
    omega

/-- C2 (amended): the coordinate-preservation guarantee holds for the
village job only — a NOT_FOUND outcome, and a FOUND outcome whose
coordinate fetch returns none, leave the row's pre-existing coordinates
in place; the subdistrict job (like the district and ULB jobs, which
share its UPDATE shape) instead writes the fetched values
unconditionally, so a NOT_FOUND outcome nulls the stored coordinates. -/
theorem c2_coordinates_amended {γ : Type}
    (direct : List Char → Option RestResponse)
    (searchHits : List Char → List (List Char))
    (coords : List Char → Option (γ × γ))
    (vrow : Villages.Row γ) (srow : Subdistricts.Row γ) :
    ((Villages.process_row direct searchHits coords vrow).status = Status.NOT_FOUND →
      (Villages.process_row direct searchHits coords vrow).latitude = vrow.latitude ∧
      (Villages.process_row direct searchHits coords vrow).longitude = vrow.longitude) ∧
    (∀ p, Villages.find_wiki_result direct searchHits vrow.village_name
        vrow.subdistrict_name vrow.district_name vrow.state_name = some p →
      coords p.title = none →
      (Villages.process_row direct searchHits coords vrow).latitude = vrow.latitude ∧
      (Villages.process_row direct searchHits coords vrow).longitude = vrow.longitude) ∧
    (Subdistricts.find_wiki_result direct searchHits srow.subdistrict_name
        srow.district_name srow.state_name = none →
      (Subdistricts.process_row direct searchHits coords srow).latitude = none ∧
      (Subdistricts.process_row direct searchHits coords srow).longitude = none) := by
  refine ⟨?_, ?_, ?_⟩
  · intro hnf
    by_cases hskip : lower vrow.state_name ∈ Villages.SKIP_STATES
    · simp [Villages.process_row, hskip]
    · cases hf : Villages.find_wiki_result direct searchHits vrow.village_name
          vrow.subdistrict_name vrow.district_name vrow.state_name with
      | none => simp [Villages.process_row, hskip, hf]
      | some p =>
        have : (Villages.process_row direct searchHits coords vrow).status
            = Status.FOUND := by
          simp [Villages.process_row, hskip, hf]
        rw [this] at hnf
        exact absurd hnf (by decide)
  · intro p hf hc
    by_cases hskip : lower vrow.state_name ∈ Villages.SKIP_STATES
    · simp [Villages.process_row, hskip]
    · simp [Villages.process_row, hskip, hf, hc]
  · intro hf
    simp [Subdistricts.process_row, hf]

/-- C2 witness: with all lookups answering none, the village row keeps
its census coordinates while the subdistrict row's are nulled. -/
theorem c2_witness :
    (Villages.process_row (fun _ => none) (fun _ => [])
        (fun _ => (none : Option (Int × Int))) sampleVilRow).latitude
      = sampleVilRow.latitude ∧
    (Subdistricts.process_row (fun _ => none) (fun _ => [])
        (fun _ => (none : Option (Int × Int))) sampleSubRow).latitude = none :=
  ⟨((c2_coordinates_amended (fun _ => none) (fun _ => []) (fun _ => none)
      sampleVilRow sampleSubRow).1 (by decide)).1,
   ((c2_coordinates_amended (fun _ => none) (fun _ => []) (fun _ => none)
      sampleVilRow sampleSubRow).2.2 (by decide)).1⟩

/-- C3 (amended): in the per-record extract jobs (districts,
subdistricts) the persisted status is FOUND exactly when the title, URL
and summary fields are all populated, and a NOT_FOUND outcome nulls all
three; the Bing URL-fallback script is the exception: it persists FOUND
with only `wiki_url` populated, leaving `wiki_title` and `wiki_summary`
untouched. -/
theorem c3_found_fields_amended {γ : Type}
    (direct : List Char → Option Districts.WikiPageObj)
    (searchHits : List Char → List (List Char))
    (cat : List Char → Bool)
    (coords : List Char → Option (γ × γ))
    (website : List Char → Option (List Char))
    (rdirect : List Char → Option RestResponse)
    (drow : Districts.Row γ) (srow : Subdistricts.Row γ)
    (u : List Char) (qid : Option (List Char)) :
    ((Districts.process_row direct searchHits cat coords website drow).status
        = Status.FOUND ↔
      (Districts.process_row direct searchHits cat coords website drow).wiki_title ≠ none ∧
      (Districts.process_row direct searchHits cat coords website drow).wiki_url ≠ none ∧
      (Districts.process_row direct searchHits cat coords website drow).wiki_summary ≠ none) ∧
    ((Subdistricts.process_row rdirect searchHits coords srow).status = Status.FOUND ↔
      (Subdistricts.process_row rdirect searchHits coords srow).wiki_title ≠ none ∧
      (Subdistricts.process_row rdirect searchHits coords srow).wiki_url ≠ none ∧
      (Subdistricts.process_row rdirect searchHits coords srow).wiki_summary ≠ none) ∧
    ((Bing.process_row (some u) qid srow).status = Status.FOUND ∧
     (Bing.process_row (some u) qid srow).wiki_title = srow.wiki_title ∧
     (Bing.process_row (some u) qid srow).wiki_summary = srow.wiki_summary ∧
     (Bing.process_row (some u) qid srow).wiki_url = some u) := by
  refine ⟨?_, ?_, ?_⟩
  · simp only [Districts.process_row]
    split
    · simp
    · simp
  · simp only [Subdistricts.process_row]
    split
    · simp
    · simp
  · simp [Bing.process_row]

/-- C3 witness: the Bing-path exception at a concrete row and URL. -/
theorem c3_witness :
    (Bing.process_row (γ := Int) (some "U".toList) none sampleSubRow).status
      = Status.FOUND ∧
    (Bing.process_row (γ := Int) (some "U".toList) none sampleSubRow).wiki_title
      = sampleSubRow.wiki_title ∧
    (Bing.process_row (γ := Int) (some "U".toList) none sampleSubRow).wiki_summary
      = sampleSubRow.wiki_summary ∧
    (Bing.process_row (γ := Int) (some "U".toList) none sampleSubRow).wiki_url
      = some "U".toList :=
  (c3_found_fields_amended (fun _ => none) (fun _ => []) (fun _ => false)
    (fun _ => none) (fun _ => none) (fun _ => none)
    ⟨"a".toList, "b".toList, none, none, none, none, none, none, Status.PENDING⟩
    sampleSubRow "U".toList none).2.2

/-- C8: validator monotonicity in the summary — whenever a candidate
satisfies every condition of a validator except the parent-hierarchy
containment check (the district and state are both absent from the
summary), appending the required parent name to the end of the summary
makes the subdistrict, ULB and village validators accept it, all other
inputs unchanged. -/
theorem c8_validator_monotonic (title summary name district state : List Char)
    (ht : title ≠ []) (hs : summary ≠ [])
    (hname : isSub (lower name) (lower title) = true ∨
             isSub (lower name) (lower summary) = true)
    (hsub_bl : Subdistricts.blacklist.any (fun b => isSub b (lower title)) = false)
    (hulb_bl : Ulbs.blacklist.any (fun b => isSub b (lower title)) = false)
    (hvil_bl : Villages.BLACKLIST.any (fun b => isSub b (lower title)) = false)
    (hulb_geo : Ulbs.GEO_KEYWORDS.any
      (fun k => isSub k ((lower summary).take 600)) = true)
    (hvil_geo : Villages.GEO_WORDS.any
      (fun w => isSub w ((lower summary).take 700)) = true)
    (hd : isSub (lower district) (lower summary) = false)
    (hst : isSub (lower state) (lower summary) = false) :
    Subdistricts.is_correct_page title (summary ++ district) name district state = true ∧
    Ulbs.is_correct_page title (summary ++ state) name state = true ∧
    Villages.is_correct_page title (summary ++ district) name district state = true := by
  have ht' : title.isEmpty = false := by
    cases title with
    | nil => exact absurd rfl ht
    | cons a l => rfl
  have hsd' : (summary ++ district).isEmpty = false := by
    cases summary with
    | nil => exact absurd rfl hs
    | cons a l => rfl
  have hss' : (summary ++ state).isEmpty = false := by
    cases summary with
    | nil => exact absurd rfl hs
    | cons a l => rfl
  have hlowd : lower (summary ++ district) = lower summary ++ lower district :=
    List.map_append _ _ _
  have hlows : lower (summary ++ state) = lower summary ++ lower state :=
    List.map_append _ _ _
  have hpard : isSub (lower district) (lower (summary ++ district)) = true := by
    rw [hlowd]; exact isSub_self_append _ _
  have hpars : isSub (lower state) (lower (summary ++ state)) = true := by
    rw [hlows]; exact isSub_self_append _ _
  have hnamed : isSub (lower name) (lower title) = true ∨
      isSub (lower name) (lower (summary ++ district)) = true := by
    rcases hname with h | h
    · exact Or.inl h
    · right; rw [hlowd]; exact isSub_append_left _ h
  have hnames : isSub (lower name) (lower title) = true ∨
      isSub (lower name) (lower (summary ++ state)) = true := by
    rcases hname with h | h
    · exact Or.inl h
    · right; rw [hlows]; exact isSub_append_left _ h
  have hgeo6 : Ulbs.GEO_KEYWORDS.any
      (fun k => isSub k ((lower (summary ++ state)).take 600)) = true := by
    rw [List.any_eq_true] at hulb_geo ⊢
    obtain ⟨k, hk, hksub⟩ := hulb_geo
    refine ⟨k, hk, ?_⟩
    rw [hlows]
    exact isSub_take_append _ _ hksub
  have hgeo7 : Villages.GEO_WORDS.any
      (fun w => isSub w ((lower (summary ++ district)).take 700)) = true := by
    rw [List.any_eq_true] at hvil_geo ⊢
    obtain ⟨w, hw, hwsub⟩ := hvil_geo
    refine ⟨w, hw, ?_⟩
    rw [hlowd]
    exact isSub_take_append _ _ hwsub
  refine ⟨?_, ?_, ?_⟩
  · rcases hnamed with h | h <;>
      simp [Subdistricts.is_correct_page, ht', hsd', h, hpard, hsub_bl]
  · rcases hnames with h | h <;>
      simp [Ulbs.is_correct_page, ht', hss', h, hpars, hgeo6, hulb_bl]
  · rcases hnamed with h | h <;>
      simp [Villages.is_correct_page, h, hpard, hgeo7, hvil_bl]

/-- C8 witness: a candidate failing only the parent check passes each
validator once the parent name is appended to the summary. -/
theorem c8_witness :
    Subdistricts.is_correct_page "Rampur".toList
      ("Rampur is a village town".toList ++ "Bareilly".toList)
      "Rampur".toList "Bareilly".toList "Uttar Pradesh".toList = true ∧
    Ulbs.is_correct_page "Rampur".toList
      ("Rampur is a village town".toList ++ "Uttar Pradesh".toList)
      "Rampur".toList "Uttar Pradesh".toList = true ∧
    Villages.is_correct_page "Rampur".toList
      ("Rampur is a village town".toList ++ "Bareilly".toList)
      "Rampur".toList "Bareilly".toList "Uttar Pradesh".toList = true :=
  c8_validator_monotonic "Rampur".toList "Rampur is a village town".toList
    "Rampur".toList "Bareilly".toList "Uttar Pradesh".toList
    (by decide) (by decide) (by decide) (by decide) (by decide) (by decide)
    (by decide) (by decide) (by decide) (by decide)

/-- C9: the per-record selection and persistence logic is a
deterministic function of the record and the oracle answers — two runs
whose lookup, search and coordinate oracles answer identically on every
term produce identical persisted rows (subdistrict and village jobs). -/
theorem c9_deterministic {γ : Type}
    (d1 d2 : List Char → Option RestResponse)
    (s1 s2 : List Char → List (List Char))
    (c1 c2 : List Char → Option (γ × γ))
    (srow : Subdistricts.Row γ) (vrow : Villages.Row γ)
    (hd : ∀ t, d1 t = d2 t) (hs : ∀ t, s1 t = s2 t) (hc : ∀ t, c1 t = c2 t) :
    Subdistricts.process_row d1 s1 c1 srow = Subdistricts.process_row d2 s2 c2 srow ∧
    Villages.process_row d1 s1 c1 vrow = Villages.process_row d2 s2 c2 vrow := by
  have hd' : d1 = d2 := funext hd
  have hs' : s1 = s2 := funext hs
  have hc' : c1 = c2 := funext hc
  rw [hd', hs', hc']
  exact ⟨rfl, rfl⟩

/-- C9 witness: two identical all-none oracle runs on concrete rows. -/
theorem c9_witness :
    Subdistricts.process_row (fun _ => none) (fun _ => [])
        (fun _ => (none : Option (Int × Int))) sampleSubRow
      = Subdistricts.process_row (fun _ => none) (fun _ => [])
        (fun _ => (none : Option (Int × Int))) sampleSubRow ∧
    Villages.process_row (fun _ => none) (fun _ => [])
        (fun _ => (none : Option (Int × Int))) sampleVilRow
      = Villages.process_row (fun _ => none) (fun _ => [])
        (fun _ => (none : Option (Int × Int))) sampleVilRow :=
  c9_deterministic (fun _ => none) (fun _ => none) (fun _ => []) (fun _ => [])
    (fun _ => none) (fun _ => none) sampleSubRow sampleVilRow
    (fun _ => rfl) (fun _ => rfl) (fun _ => rfl)

/-- C10: a village record whose raw name cleans to fewer than two
characters is rejected before any lookup — the matcher returns none for
every possible oracle (so no lookup outcome can matter), and the
persisted row of a non-skip-state record is NOT_FOUND with all three
reference fields null. -/
theorem c10_short_clean_name {γ : Type}
    (direct : List Char → Option RestResponse)
    (searchHits : List Char → List (List Char))
    (coords : List Char → Option (γ × γ))
    (row : Villages.Row γ)
    (hshort : Villages.clean_name row.village_name = [] ∨
      (Villages.clean_name row.village_name).length < 2)
    (hskip : lower row.state_name ∉ Villages.SKIP_STATES) :
    Villages.find_wiki_result direct searchHits row.village_name
      row.subdistrict_name row.district_name row.state_name = none ∧
    (Villages.process_row direct searchHits coords row).status = Status.NOT_FOUND ∧
    (Villages.process_row direct searchHits coords row).wiki_title = none ∧
    (Villages.process_row direct searchHits coords row).wiki_url = none ∧
    (Villages.process_row direct searchHits coords row).wiki_summary = none := by
  have hguard : ((Villages.clean_name row.village_name).isEmpty
      || decide ((Villages.clean_name row.village_name).length < 2)) = true := by
    rcases hshort with h | h
    · simp [h]
    · simp [h]
  have hfind : Villages.find_wiki_result direct searchHits row.village_name
      row.subdistrict_name row.district_name row.state_name = none := by
    simp only [Villages.find_wiki_result]
    rcases hshort with h | h
    · simp [h]
    · simp [h]
  refine ⟨hfind, ?_, ?_, ?_, ?_⟩ <;>
    simp [Villages.process_row, hskip, hfind]

/-- C10 witness: the record named "**" (which cleans to the empty
string) in a non-skip state ends NOT_FOUND with null reference fields,
for the all-none oracles. -/
theorem c10_witness :
    Villages.find_wiki_result (fun _ => none) (fun _ => [])
      sampleBadNameRow.village_name sampleBadNameRow.subdistrict_name
      sampleBadNameRow.district_name sampleBadNameRow.state_name = none ∧
    (Villages.process_row (fun _ => none) (fun _ => [])
        (fun _ => (none : Option (Int × Int))) sampleBadNameRow).status
      = Status.NOT_FOUND ∧
    (Villages.process_row (fun _ => none) (fun _ => [])
        (fun _ => (none : Option (Int × Int))) sampleBadNameRow).wiki_title = none ∧
    (Villages.process_row (fun _ => none) (fun _ => [])
        (fun _ => (none : Option (Int × Int))) sampleBadNameRow).wiki_url = none ∧
    (Villages.process_row (fun _ => none) (fun _ => [])
        (fun _ => (none : Option (Int × Int))) sampleBadNameRow).wiki_summary = none :=
  c10_short_clean_name (fun _ => none) (fun _ => []) (fun _ => none)
    sampleBadNameRow (Or.inl (by decide)) (by decide)

/-- C5 witness: the amended ordering facts applied at the spec's
concrete record. -/
theorem c5_witness :
    "Nellore".toList ∉ Districts.search_terms "Nellore".toList "Andhra Pradesh".toList :=
  (c5_ordering_amended "Nellore".toList "Guntur".toList "Andhra Pradesh".toList
    "Municipality".toList).2.2.2.2.2.2.1
